import Mathlib

/-!
Verification of the Boataround scraping core (`download_fun.py`).

The development shallowly embeds the module's data model and operations:
HTML pages become a tree type `Node` with BeautifulSoup-style traversal,
Python exceptions become `Except PyError`, the network is an oracle
parameter, and the unbounded `while` loops are driven by explicit fuel
(`none` meaning the loop has not produced a result within the given fuel).
-/

namespace Boataround

/-! ## String primitives

Python's `str.split`, `str.strip` and `int` conversion, implemented over
character lists by structural recursion so that every definition below
evaluates inside the kernel. -/

/-- Whether `p` matches the leading characters of `l`. -/
def matchesAtStart : List Char → List Char → Bool
  | [], _ => true
  | _ :: _, [] => false
  | p :: ps, c :: cs => p == c && matchesAtStart ps cs

/-- Split a character list on a non-empty separator, Python `str.split(sep)`
style; the fuel, instantiated with the list length, bounds the recursion. -/
def splitChars (sep : List Char) : Nat → List Char → List Char → List (List Char)
  | _, [], acc => [acc.reverse]
  | 0, l, acc => [acc.reverse ++ l]
  | fuel + 1, c :: cs, acc =>
    if matchesAtStart sep (c :: cs) then
      acc.reverse :: splitChars sep fuel ((c :: cs).drop sep.length) []
    else splitChars sep fuel cs (c :: acc)

/-- Python `s.split(sep)` for a non-empty separator: the pieces of `s`
between non-overlapping occurrences of `sep`, in order, empty pieces kept. -/
def strSplitOn (s sep : String) : List String :=
  (splitChars sep.data s.data.length s.data []).map String.mk

/-- ASCII whitespace as stripped by Python `str.strip()`. -/
def isSpaceChar (c : Char) : Bool :=
  c == ' ' || c == '\t' || c == '\n' || c == '\r' || c == '\x0b' || c == '\x0c'

/-- Python `s.strip()`: drop whitespace from both ends. -/
def strTrim (s : String) : String :=
  String.mk ((s.data.dropWhile isSpaceChar).reverse.dropWhile isSpaceChar).reverse

/-- The numeric value of a digit string (callers check the digits first). -/
def digitsToNat (s : String) : Nat :=
  s.data.foldl (fun acc c => acc * 10 + (c.toNat - 48)) 0

/-- Whether `s` is non-empty and all decimal digits. -/
def isDigitStr (s : String) : Bool :=
  !s.data.isEmpty && s.data.all Char.isDigit

/-- An HTML node: either a text fragment or a tag with a name, an attribute
list and children, mirroring the parsed `BeautifulSoup` document tree. -/
inductive Node where
  | text (s : String)
  | tag (name : String) (attrs : List (String × String)) (children : List Node)
deriving Repr

mutual

/-- Structural equality test on nodes (used to locate a node inside a tree). -/
def Node.beq : Node → Node → Bool
  | .text s, .text t => s == t
  | .tag n a cs, .tag m b ds => n == m && a == b && Node.beqList cs ds
  | _, _ => false

/-- Structural equality test on forests. -/
def Node.beqList : List Node → List Node → Bool
  | [], [] => true
  | c :: cs, d :: ds => Node.beq c d && Node.beqList cs ds
  | _, _ => false

end

instance : BEq Node := ⟨Node.beq⟩

mutual

/-- All descendants of a node in document (preorder) order, excluding the node
itself: the order in which BeautifulSoup's `find`/`find_all` visit
candidates. -/
def Node.descendants : Node → List Node
  | .text _ => []
  | .tag _ _ cs => Node.descList cs

/-- Preorder listing of a forest: each root followed by its descendants. -/
def Node.descList : List Node → List Node
  | [] => []
  | c :: cs => c :: c.descendants ++ Node.descList cs

end

mutual

/-- Concatenated text content of a node (`Tag.text` in BeautifulSoup). -/
def Node.getText : Node → String
  | .text s => s
  | .tag _ _ cs => Node.getTextList cs

/-- Concatenated text content of a forest. -/
def Node.getTextList : List Node → String
  | [] => ""
  | c :: cs => c.getText ++ Node.getTextList cs

end

/-- `tag.get(key, dflt)`: attribute lookup with a default. -/
def Node.get (n : Node) (key dflt : String) : String :=
  match n with
  | .text _ => dflt
  | .tag _ attrs _ => ((attrs.find? (fun kv => kv.1 == key)).map Prod.snd).getD dflt

/-- Whether a node is a tag of the given name. -/
def Node.isNamed (n : Node) (t : String) : Bool :=
  match n with
  | .text _ => false
  | .tag nm _ _ => nm == t

/-- BeautifulSoup `class_` matching: the query equals the full `class`
attribute, or is one of its space-separated class names. -/
def Node.hasClass (n : Node) (c : String) : Bool :=
  match n with
  | .text _ => false
  | .tag _ attrs _ =>
    match attrs.find? (fun kv => kv.1 == "class") with
    | none => false
    | some kv => kv.2 == c || (strSplitOn kv.2 " ").contains c

/-- Whether a tag carries `id` equal to the given string. -/
def Node.hasId (n : Node) (i : String) : Bool :=
  match n with
  | .text _ => false
  | .tag _ attrs _ => (attrs.find? (fun kv => kv.1 == "id")).map Prod.snd == some i

/-- `soup.find(...)`: first descendant in document order matching the
predicate, `none` when there is no match (Python `None`). -/
def Node.find (n : Node) (p : Node → Bool) : Option Node :=
  n.descendants.find? p

/-- `soup.find_all(...)`: all matching descendants in document order. -/
def Node.find_all (n : Node) (p : Node → Bool) : List Node :=
  n.descendants.filter p

/-- `x.find_next(...)` relative to a root tree: the first node matching the
predicate that follows the (first occurrence of the) node `x` in the root's
document order. -/
def Node.find_next (root x : Node) (p : Node → Bool) : Option Node :=
  (((root.descendants).dropWhile (fun m => !(m == x))).drop 1).find? p

/-- The siblings preceding (the first occurrence of) `x` inside the root tree:
the children, before `x`, of the first node having `x` as a direct child. -/
def Node.prev_siblings (root x : Node) : List Node :=
  match (root :: root.descendants).find? (fun m =>
      match m with
      | .text _ => false
      | .tag _ _ cs => cs.contains x) with
  | some (.tag _ _ cs) => cs.takeWhile (fun c => !(c == x))
  | _ => []

/-- `.text.strip()` / `get_text(strip=True)` on the single-text elements the
scraper reads: concatenated text content, trimmed. -/
def Node.textStrip (n : Node) : String := strTrim n.getText

/-! ## Calendar dates (`datetime.date` fragment used by `gen_dates`) -/

/-- Gregorian leap-year test. -/
def isLeap (y : Nat) : Bool := y % 4 == 0 && (y % 100 != 0 || y % 400 == 0)

/-- Number of days in a month of a given year. -/
def daysInMonth (y m : Nat) : Nat :=
  if m == 2 then (if isLeap y then 29 else 28)
  else if m == 4 || m == 6 || m == 9 || m == 11 then 30
  else 31

/-- A calendar date, as carried by `datetime` objects here (time is unused). -/
structure Date where
  year : Nat
  month : Nat
  day : Nat
deriving Repr, DecidableEq

/-- `datetime` comparison `current_date <= end_date`: lexicographic on
(year, month, day). -/
def Date.le (a b : Date) : Bool :=
  a.year < b.year || (a.year == b.year &&
    (a.month < b.month || (a.month == b.month && a.day ≤ b.day)))

/-- `current_date + timedelta(days=1)`. -/
def Date.next (d : Date) : Date :=
  if d.day < daysInMonth d.year d.month then ⟨d.year, d.month, d.day + 1⟩
  else if d.month < 12 then ⟨d.year, d.month + 1, 1⟩
  else ⟨d.year + 1, 1, 1⟩

/-- Days in the months strictly before month `m` of year `y`. -/
def daysBeforeMonth (y m : Nat) : Nat :=
  (List.range (m - 1)).foldl (fun acc i => acc + daysInMonth y (i + 1)) 0

/-- Proleptic-Gregorian ordinal of a date (`date.toordinal`: 0001-01-01 is
day 1). -/
def Date.toOrdinal (d : Date) : Nat :=
  365 * (d.year - 1) + (d.year - 1) / 4 - (d.year - 1) / 100 + (d.year - 1) / 400
    + daysBeforeMonth d.year d.month + d.day

/-- `date.weekday()`: Monday is 0, Saturday is 5 (0001-01-01 was a Monday). -/
def Date.weekday (d : Date) : Nat := (d.toOrdinal + 6) % 7

/-- Zero-padding to two digits, as `strftime` does for each field below. -/
def pad2 (n : Nat) : String := if n < 10 then "0" ++ toString n else toString n

/-- `strftime('%y-%m-%d')` as written in `gen_dates`: `%y` is the year modulo
100, two digits. -/
def Date.strftimeShort (d : Date) : String :=
  pad2 (d.year % 100) ++ "-" ++ pad2 d.month ++ "-" ++ pad2 d.day

/-- `datetime.strptime(s, '%Y-%m-%d')`: a four-digit year and one- or
two-digit month and day separated by dashes, validated as a calendar date;
`none` models the `ValueError` raised on any other shape. -/
def strptimeYMD (s : String) : Option Date :=
  match strSplitOn s "-" with
  | [ys, ms, ds] =>
    if ys.data.length == 4 && isDigitStr ys
        && (ms.data.length == 1 || ms.data.length == 2) && isDigitStr ms
        && (ds.data.length == 1 || ds.data.length == 2) && isDigitStr ds then
      let y := digitsToNat ys
      let m := digitsToNat ms
      let d := digitsToNat ds
      if 1 ≤ m ∧ m ≤ 12 ∧ 1 ≤ d ∧ d ≤ daysInMonth y m then some ⟨y, m, d⟩
      else none
    else none
  | _ => none

/-- The day-by-day loop of `gen_dates`, with enough fuel to cover the closed
range: while `current_date <= end_date`, append `strftime('%y-%m-%d')` of
every Saturday and step one day forward. -/
def genDatesLoop (endDate : Date) : Nat → Date → List String
  | 0, _ => []
  | fuel + 1, cur =>
    if cur.le endDate then
      (if cur.weekday == 5 then [cur.strftimeShort] else [])
        ++ genDatesLoop endDate fuel cur.next
    else []

/-- `gen_dates(start_date_str, end_date_str)`: parse both bounds, then collect
the formatted Saturdays of the closed range in ascending order. -/
def gen_dates (start_date_str end_date_str : String) : Option (List String) := do
  let s ← strptimeYMD start_date_str
  let e ← strptimeYMD end_date_str
  pure (genDatesLoop e (e.toOrdinal + 1 - s.toOrdinal) s)

/-! ## URL query parsing (`urlparse` / `parse_qs` fragment used on links) -/

/-- `urlparse(href).query`: the part after the first `?` of the part before
the first `#`. -/
def urlQuery (s : String) : String :=
  let beforeFrag := (strSplitOn s "#").headD s
  match strSplitOn beforeFrag "?" with
  | [] => ""
  | [_] => ""
  | _ :: rest => String.intercalate "?" rest

/-- `parse_qs(query).get(key, [''])[0]`: the first value bound to `key` in the
query string; pairs without `=` or with an empty value are dropped
(`keep_blank_values` is false), and the default is the empty string. Percent
escapes do not occur in the links handled here and are not decoded. -/
def parseQsFirst (query key : String) : String :=
  let pairs := (strSplitOn query "&").filterMap (fun nv =>
    match strSplitOn nv "=" with
    | [] => none
    | [_] => none
    | n :: vs =>
      let v := String.intercalate "=" vs
      if v.isEmpty then none else some (n, v))
  match pairs.find? (fun kv => kv.1 == key) with
  | some kv => kv.2
  | none => ""

/-! ## The Record Extractor (`process_list`) -/

/-- The Python exceptions the scraping core can raise. -/
inductive PyError where
  | attributeError
  | nameError
deriving Repr, DecidableEq

/-- One extracted boat offer, as the dictionary appended to `page_data`. -/
structure ListingRecord where
  link : String
  boat_name : String
  boat_length : String
  price : String
  check_in : String
  check_out : String
deriving Repr, DecidableEq

deriving instance DecidableEq for Except

/-- `div` of class `d-flex`: a candidate container for the parameter table. -/
def isDFlexDiv (n : Node) : Bool := n.isNamed "div" && n.hasClass "d-flex"

/-- `ul` of class `search-result-middle__params-name`. -/
def isParamsNameUl (n : Node) : Bool :=
  n.isNamed "ul" && n.hasClass "search-result-middle__params-name"

/-- `ul` of class `search-result-middle__params-value`. -/
def isParamsValueUl (n : Node) : Bool :=
  n.isNamed "ul" && n.hasClass "search-result-middle__params-value"

/-- The `string=lambda text: "Length" in text` filter: an `li` whose text
contains the substring `Length`. -/
def isLengthLi (n : Node) : Bool :=
  n.isNamed "li" && (strSplitOn n.getText "Length").length != 1

/-- The boat-length loop of `process_list` over the `d-flex` containers of one
listing item. `lengthVar` is the current binding of the Python variable
`length_value` (`none` when it has never been assigned); the result is its
binding after the loop. A container without a params-name list raises
`AttributeError` (`div.find(...)` is `None` and is immediately searched);
when a `Length` entry is found the loop breaks, assigning `length_value` only
when the adjacent value list exists and is long enough. -/
def lengthLoop (item : Node) : List Node → Option String → Except PyError (Option String)
  | [], lengthVar => .ok lengthVar
  | div :: rest, lengthVar =>
    match div.find isParamsNameUl with
    | none => .error .attributeError
    | some nameUl =>
      match nameUl.find isLengthLi with
      | none => lengthLoop item rest lengthVar
      | some lengthLi =>
        let idx := ((Node.prev_siblings item lengthLi).filter
          (fun c => c.isNamed "li")).length
        match Node.find_next item lengthLi isParamsValueUl with
        | none => .ok lengthVar
        | some pvUl =>
          match (pvUl.find_all (fun c => c.isNamed "li")).get? idx with
          | some v => .ok (some v.textStrip)
          | none => .ok lengthVar

/-- The body of `process_list`'s loop for one listing item, threading the
binding of the Python variable `length_value` across iterations. Missing
anchor, name span or price span raise `AttributeError`; reading an unbound
`length_value` when building the record raises `NameError`. -/
def process_item (item : Node) (lengthVar : Option String) :
    Except PyError (ListingRecord × Option String) :=
  match item.find (fun c => c.isNamed "a") with
  | none => .error .attributeError
  | some anchor =>
    let href := anchor.get "href" ""
    let check_in := parseQsFirst (urlQuery href) "checkIn"
    let check_out := parseQsFirst (urlQuery href) "checkOut"
    match item.find (fun c => c.isNamed "span" && c.hasClass "mr-2") with
    | none => .error .attributeError
    | some nameSpan =>
      match item.find (fun c => c.isNamed "span" && c.hasClass "price-box__price ml-2") with
      | none => .error .attributeError
      | some priceSpan =>
        match lengthLoop item (item.find_all isDFlexDiv) lengthVar with
        | .error e => .error e
        | .ok none => .error .nameError
        | .ok (some lv) =>
          .ok (⟨href, nameSpan.textStrip, lv, priceSpan.textStrip, check_in, check_out⟩,
            some lv)

/-- The loop of `process_list` over the search list, accumulating records in
listing order; an exception aborts the whole page. -/
def processListAux : List Node → Option String → Except PyError (List ListingRecord)
  | [], _ => .ok []
  | item :: rest, lengthVar =>
    match process_item item lengthVar with
    | .error e => .error e
    | .ok (r, lengthVar2) =>
      match processListAux rest lengthVar2 with
      | .error e => .error e
      | .ok recs => .ok (r :: recs)

/-- `process_list(search_list)`: extract one record per listing element; the
local variable `length_value` starts the call unbound. -/
def process_list (search_list : List Node) : Except PyError (List ListingRecord) :=
  processListAux search_list none

/-! ## Last-page detection (`check_page`) -/

/-- The pagination control: `div` of class `paginator--desktop`. -/
def isPaginatorDiv (n : Node) : Bool := n.isNamed "div" && n.hasClass "paginator--desktop"

/-- A pagination arrow: `a` of class `paginator__arrow`. -/
def isPaginatorArrow (n : Node) : Bool := n.isNamed "a" && n.hasClass "paginator__arrow"

/-- `check_page(id_search)`: find the desktop paginator, take its second
arrow, and report whether its `disabled` attribute equals `'disabled'`.
`none` models the exception raised when the paginator is missing
(`AttributeError` on `None.find_all`) or has fewer than two arrows
(`IndexError` on `paginator_arrows[1]`). -/
def check_page (id_search : Node) : Option Bool :=
  match id_search.find isPaginatorDiv with
  | none => none
  | some paginator =>
    match (paginator.find_all isPaginatorArrow).get? 1 with
    | none => none
    | some arrow => some ("disabled" == arrow.get "disabled" "")

/-! ## Concrete page fragments used as test inputs -/

/-- A parameter list (`ul`) of the given class with one `li` per entry. -/
def mkParamsUl (cls : String) (entries : List String) : Node :=
  .tag "ul" [("class", cls)] (entries.map (fun e => .tag "li" [] [.text e]))

/-- A listing element with link, name, price and a `d-flex` parameter table
pairing the given name column with the given value column. -/
def mkItem (href nm pr : String) (names vals : List String) : Node :=
  .tag "li" [("class", "search-result-wrapper mt-4")]
    [ .tag "a" [("href", href)] [.text nm]
    , .tag "span" [("class", "mr-2")] [.text nm]
    , .tag "div" [("class", "d-flex")]
        [ mkParamsUl "search-result-middle__params-name" names
        , mkParamsUl "search-result-middle__params-value" vals ]
    , .tag "span" [("class", "price-box__price ml-2")] [.text pr] ]

/-- A listing whose parameter table has a `Length` row. -/
def goodItem : Node :=
  mkItem "/en/boat-a?checkIn=2024-06-01&checkOut=2024-06-08" "Bavaria 46" "€1,234.00"
    ["Cabins", "Length"] ["4", "10.43 m"]

/-- A listing whose parameter table has no `Length` row. -/
def noLengthItem : Node :=
  mkItem "/en/boat-b?checkIn=2024-06-01&checkOut=2024-06-08" "Lagoon 40" "€2,000.00"
    ["Cabins"] ["3"]

/-! ## The Page Fetcher (`down_page`) -/

/-- An HTTP request as assembled by the `requests` library from the arguments
of `requests.get`. -/
structure HttpRequest where
  url : String
  params : List (String × String)
  headers : List (String × String)
  timeoutSeconds : Nat
deriving Repr, DecidableEq

/-- The fixed Chrome-on-Windows user-agent string built in `down_page`. -/
def chromeUserAgent : String :=
  "Mozilla/5.0 (Windows NT 10.0; Win64; x64) AppleWebKit/537.36 " ++
    "(KHTML, like Gecko) Chrome/58.0.3029.110 Safari/537.3"

/-- `requests.get(url, params, ...)`: the library call's positional signature.
The second positional argument is `params`; `headers` is a keyword argument
defaulting to the empty mapping when not given. -/
def requestsGet (url : String) (params : List (String × String))
    (headers : List (String × String)) (timeoutSeconds : Nat) : HttpRequest :=
  ⟨url, params, headers, timeoutSeconds⟩

/-- The request built by `down_page`'s call
`requests.get(url, headers, timeout=99999)` on the stripped URL: the local
`headers` dictionary is passed positionally, i.e. in the `params` slot, and no
`headers` keyword is supplied. -/
def down_page_request (url : String) : HttpRequest :=
  requestsGet (strTrim url) [("User-Agent", chromeUserAgent)] [] 99999

/-- The outcome of the single `requests.get` call made by `down_page`:
an SSL error, any other requests-level error, or a response with a status. -/
inductive FetchOutcome where
  | sslError
  | requestError
  | success (status : Nat) (body : Node)

/-- A returned HTTP response. -/
structure HttpResponse where
  status : Nat
  body : Node

/-- `down_page`'s control flow over the outcome of its requests, given an
oracle listing the outcome of each successive request the function might
make. The second component counts the requests actually issued. `SSLError`
and every other `RequestException` print and `sys.exit(1)` (modelled as
`Except.error 1`, the exit status); `raise_for_status()` turns a 4xx/5xx
status into such an exception as well. No retry exists: only `oracle 0` is
ever consulted. -/
def down_page (oracle : Nat → FetchOutcome) : Except Nat HttpResponse × Nat :=
  match oracle 0 with
  | .sslError => (.error 1, 1)
  | .requestError => (.error 1, 1)
  | .success st body =>
    (if 400 ≤ st ∧ st < 600 then .error 1 else .ok ⟨st, body⟩, 1)

/-! ## The Result-List Extractor (`single_page_scraping`) -/

/-- The unique results container: `div` with id `search`. -/
def isSearchDiv (n : Node) : Bool := n.isNamed "div" && n.hasId "search"

/-- The results section: `section` of class `search-results-list`. -/
def isResultsSection (n : Node) : Bool :=
  n.isNamed "section" && n.hasClass "search-results-list"

/-- One pass of the inner `for attempt in range(retries)` loop of
`single_page_scraping`, with `retries = 5` attempts. `fetch t` is the parsed
content of the `t`-th download of the URL; the result is the download count
after the pass. A page without the `search` div raises `AttributeError`
(`id_search` is `None` and is searched); a found results section breaks out
of the `for`; an exhausted pass merely prints. -/
def spsForPass (fetch : Nat → Node) (t : Nat) : Nat → Except PyError Nat
  | 0 => .ok t
  | attemptsLeft + 1 =>
    match (fetch t).find isSearchDiv with
    | none => .error .attributeError
    | some id_search =>
      match id_search.find isResultsSection with
      | none => spsForPass fetch (t + 1) attemptsLeft
      | some _ => .ok (t + 1)

/-- `single_page_scraping(url)` as a fuelled iteration of its outer
`while True` loop: each step runs one full pass of the retry `for` loop and
then reenters the `while`. `fetch` abstracts `down_page` plus HTML parsing;
the counter is the number of downloads made so far. The value `none` means
the call has not returned within `fuel` iterations of the `while` loop; a
`some` value could only arise from an exception escaping the loop, since the
statements following the loop (collecting the `search-result-wrapper mt-4`
items and calling `check_page`) come after `while True` and no `break` or
`return` leaves it. -/
def single_page_scraping (fetch : Nat → Node) :
    Nat → Nat → Option (Except PyError (List Node × Bool))
  | 0, _ => none
  | fuel + 1, t =>
    match spsForPass fetch t 5 with
    | .error e => some (.error e)
    | .ok t2 => single_page_scraping fetch fuel t2

/-! ## The Page-Sequence Walker (`all_pages_scraping`) -/

/-- The URL requested for page `n`: the base URL with `&page=n` appended. -/
def pageUrl (url : String) (n : Nat) : String := url ++ "&page=" ++ toString n

/-- The `while not last_page` loop of `all_pages_scraping`, instrumented with
the list of URLs requested so far. The fetch-and-extract collaborator
`single_page_scraping` is abstracted as an oracle from the requested URL to
its intended `(search_list, last_page)` result. Each iteration extracts the
page's records with `process_list` (whose exception aborts the walk),
extends the accumulator, and increments the page number; `none` means the
loop has not finished within `fuel` iterations. -/
def all_pages_scraping (sps : String → List Node × Bool) (url : String) :
    Nat → Nat → List String → List ListingRecord →
    Option (List String × Except PyError (List ListingRecord))
  | 0, _, _, _ => none
  | fuel + 1, n, urls, acc =>
    let u := pageUrl url n
    match process_list (sps u).1 with
    | .error e => some (urls ++ [u], .error e)
    | .ok recs =>
      if (sps u).2 then some (urls ++ [u], .ok (acc ++ recs))
      else all_pages_scraping sps url fuel (n + 1) (urls ++ [u]) (acc ++ recs)

/-! ## The Scrape Orchestrator (`all_dates_scraping`) -/

/-- The search URL built for one date window. -/
def windowUrl (destination check_in_date check_out_date : String) : String :=
  "https://bt2stag.boataround.com/search?destinations=" ++ destination ++
    "&checkIn=" ++ check_in_date ++ "&checkOut=" ++ check_out_date

/-- The consecutive pairs `(saturdays[i], saturdays[i+1])` iterated by
`for nth_saturday in range(len(saturdays)-1)`. -/
def consecutivePairs : List String → List (String × String)
  | a :: b :: rest => (a, b) :: consecutivePairs (b :: rest)
  | _ => []

/-- The window loop of `all_dates_scraping`, instrumented with the list of
window URLs walked. The Page-Sequence Walker is abstracted as `walker` from
the search URL to its records (or the exception aborting the run); results
extend `location_data` in window order. -/
def adsLoop (walker : String → Except PyError (List ListingRecord))
    (destination : String) :
    List (String × String) → List String × Except PyError (List ListingRecord)
  | [] => ([], .ok [])
  | (check_in_date, check_out_date) :: rest =>
    let u := windowUrl destination check_in_date check_out_date
    match walker u with
    | .error e => ([u], .error e)
    | .ok recs =>
      match adsLoop walker destination rest with
      | (us, .error e) => (u :: us, .error e)
      | (us, .ok more) => (u :: us, .ok (recs ++ more))

/-- `all_dates_scraping(destination, start_date_str, end_date_str)`: generate
the Saturdays, then walk one search URL per consecutive pair, concatenating
the records; `none` models the `ValueError` of an unparsable date bound. -/
def all_dates_scraping (walker : String → Except PyError (List ListingRecord))
    (destination start_date_str end_date_str : String) :
    Option (List String × Except PyError (List ListingRecord)) :=
  (gen_dates start_date_str end_date_str).map
    (fun saturdays => adsLoop walker destination (consecutivePairs saturdays))

/-- A desktop paginator whose second arrow is disabled. -/
def paginatorNode : Node :=
  .tag "div" [("class", "paginator--desktop")]
    [ .tag "a" [("class", "paginator__arrow")] []
    , .tag "a" [("class", "paginator__arrow"), ("disabled", "disabled")] [] ]

/-- A `search` div holding a paginator on its last page. -/
def paginatorPage : Node := .tag "div" [("id", "search")] [paginatorNode]

/-- A `search` div with no paginator at all. -/
def noPaginatorPage : Node := .tag "div" [("id", "search")] []

/-- A well-formed search page: the `search` div holds the results section and
a paginator. -/
def goodPage : Node :=
  .tag "html" []
    [ .tag "div" [("id", "search")]
        [ .tag "section" [("class", "search-results-list")] [goodItem]
        , paginatorNode ] ]

/-- A base search URL for a three-page walk. -/
def base3 : String :=
  "https://bt2stag.boataround.com/search?destinations=split-1" ++
    "&checkIn=24-06-01&checkOut=24-06-08"

/-- The single listing shown on one synthetic page. -/
def pageItems3 (nm : String) : List Node :=
  [mkItem ("/b?n=" ++ nm) nm "€1.00" ["Length"] ["9 m"]]

/-- A three-page sequence: only page 3 reports a disabled next arrow. -/
def sps3 : String → List Node × Bool := fun u =>
  if u = pageUrl base3 1 then (pageItems3 "Alpha", false)
  else if u = pageUrl base3 2 then (pageItems3 "Bravo", false)
  else (pageItems3 "Charlie", true)

/-- The record extracted from `pageItems3 nm`. -/
def recs3 (nm : String) : List ListingRecord :=
  [⟨"/b?n=" ++ nm, nm, "9 m", "€1.00", "", ""⟩]

/-- The per-page extraction results of the three-page sequence. -/
def f3 : Nat → List ListingRecord :=
  fun n => if n = 1 then recs3 "Alpha" else if n = 2 then recs3 "Bravo" else recs3 "Charlie"

/-- A record distinguished only by its boat name. -/
def wrec (nm : String) : ListingRecord := ⟨"", nm, "", "", "", ""⟩

/-- Four records per window: two pages of two listings each. -/
def windowRecords (check_in_date : String) : List ListingRecord :=
  if check_in_date = "24-05-04"
  then [wrec "w1p1b1", wrec "w1p1b2", wrec "w1p2b1", wrec "w1p2b2"]
  else [wrec "w2p1b1", wrec "w2p1b2", wrec "w2p2b1", wrec "w2p2b2"]

/-- A two-window walker delivering `windowRecords` per window. -/
def walker6 : String → Except PyError (List ListingRecord) := fun u =>
  if u = windowUrl "split-1" "24-05-04" "24-05-11" then .ok (windowRecords "24-05-04")
  else .ok (windowRecords "24-05-11")

/-- The per-window results of `walker6`, keyed by the check-in date. -/
def f6 : String × String → List ListingRecord := fun p => windowRecords p.1

/-! ## Theorems -/

/-- C1: the claim that `process_list` returns a record for every listing
element, leaving `boat_length` unset when no container has a `Length` entry
and affecting no other record, fails on the code: the local `length_value`
is never initialised, so a first listing without a `Length` entry raises
`NameError`, and after a listing that did have one the stale value leaks
into the length-less record ("10.43 m" below belongs to the first boat). -/
theorem process_list_missing_length_raises :
    process_list [noLengthItem] = .error PyError.nameError ∧
    process_list [goodItem, noLengthItem] = .ok
      [⟨"/en/boat-a?checkIn=2024-06-01&checkOut=2024-06-08", "Bavaria 46", "10.43 m",
        "€1,234.00", "2024-06-01", "2024-06-08"⟩,
       ⟨"/en/boat-b?checkIn=2024-06-01&checkOut=2024-06-08", "Lagoon 40", "10.43 m",
        "€2,000.00", "2024-06-01", "2024-06-08"⟩] :=
  ⟨rfl, rfl⟩

/-- C3: evaluated on the claim's own example range, `gen_dates` does return
the four Saturdays of May 2024 in ascending order (and their consecutive
pairing yields exactly 3 windows), but formatted with `strftime('%y-%m-%d')`
— a two-digit year — rather than the `YYYY-MM-DD` the claim states. -/
theorem gen_dates_two_digit_year :
    gen_dates "2024-05-01" "2024-05-31" =
      some ["24-05-04", "24-05-11", "24-05-18", "24-05-25"] ∧
    (consecutivePairs ["24-05-04", "24-05-11", "24-05-18", "24-05-25"]).length = 3 :=
  ⟨rfl, rfl⟩

/-- C7: the claim that every request carries the Chrome user-agent header
fails on the code: `requests.get(url, headers, timeout=99999)` passes the
headers dictionary positionally, i.e. as the `params` argument, so the
request is sent with no headers at all and the user-agent pair ends up in
the query-parameter slot; only the effectively unbounded 99999-second
timeout part of the claim holds. -/
theorem down_page_request_header_misplaced (url : String) :
    (down_page_request url).headers = [] ∧
    (down_page_request url).params = [("User-Agent", chromeUserAgent)] ∧
    (down_page_request url).timeoutSeconds = 99999 :=
  ⟨rfl, rfl, rfl⟩

/-- C8: whenever the single request made by `down_page` fails — an SSL
error, any other request exception, or a 4xx/5xx status turned into an
exception by `raise_for_status()` — the function prints and exits the
process with status 1, and no second request is issued. -/
theorem down_page_fail_fast (oracle : Nat → FetchOutcome)
    (h : oracle 0 = .sslError ∨ oracle 0 = .requestError ∨
      ∃ st body, oracle 0 = .success st body ∧ 400 ≤ st ∧ st < 600) :
    down_page oracle = (.error 1, 1) ∧ (1 : Nat) ≠ 0 := by
  refine ⟨?_, one_ne_zero⟩
  rcases h with h | h | ⟨st, body, h, hlo, hhi⟩
  · unfold down_page; rw [h]
  · unfold down_page; rw [h]
  · unfold down_page; rw [h]; simp [hlo, hhi]

/-- Witness for C8: a TLS failure on the first request exits with status 1
after exactly one request. -/
theorem down_page_fail_fast_witness :
    down_page (fun _ => FetchOutcome.sslError) = (.error 1, 1) ∧ (1 : Nat) ≠ 0 :=
  down_page_fail_fast (fun _ => FetchOutcome.sslError) (Or.inl rfl)

/-- A Saturday list with at most one element yields no consecutive pairs. -/
theorem consecutivePairs_short :
    ∀ (saturdays : List String), saturdays.length ≤ 1 → consecutivePairs saturdays = []
  | [], _ => rfl
  | [_], _ => rfl
  | _ :: _ :: _, h => absurd h (by simp)

/-- C9: when the date range contains 0 or 1 Saturdays, `all_dates_scraping`
builds no search URL, calls the page walker zero times, and returns the
empty record list. -/
theorem all_dates_scraping_few_saturdays
    (walker : String → Except PyError (List ListingRecord))
    (destination start_date_str end_date_str : String) (saturdays : List String)
    (hs : gen_dates start_date_str end_date_str = some saturdays)
    (hlen : saturdays.length ≤ 1) :
    all_dates_scraping walker destination start_date_str end_date_str =
      some ([], .ok []) := by
  unfold all_dates_scraping
  rw [hs]
  simp only [Option.map_some', consecutivePairs_short saturdays hlen]
  rfl

/-- Witness for C9: the range 2024-05-05 (a Sunday) to 2024-05-10 (a Friday)
contains no Saturday, so the orchestrator walks nothing and returns no
records. -/
theorem all_dates_scraping_few_saturdays_witness :
    all_dates_scraping (fun _ => Except.ok []) "split-1" "2024-05-05" "2024-05-10" =
      some ([], .ok []) :=
  all_dates_scraping_few_saturdays (fun _ => Except.ok []) "split-1"
    "2024-05-05" "2024-05-10" [] rfl (by decide)

/-- C10: `check_page` returns a Boolean exactly under the precondition that
the search container holds a `paginator--desktop` div with at least two
`paginator__arrow` anchors — then the flag is true exactly when the second
arrow's `disabled` attribute equals `'disabled'` — while a missing paginator
or fewer than two arrows makes detection fail instead of returning a flag. -/
theorem check_page_characterization (id_search : Node) :
    (∀ paginator, id_search.find isPaginatorDiv = some paginator →
      2 ≤ (paginator.find_all isPaginatorArrow).length →
      ∃ arrow, (paginator.find_all isPaginatorArrow).get? 1 = some arrow ∧
        check_page id_search = some ("disabled" == arrow.get "disabled" "")) ∧
    (id_search.find isPaginatorDiv = none → check_page id_search = none) ∧
    (∀ paginator, id_search.find isPaginatorDiv = some paginator →
      (paginator.find_all isPaginatorArrow).length < 2 →
      check_page id_search = none) := by
  refine ⟨?_, ?_, ?_⟩
  · intro paginator hp h2
    cases ha : (paginator.find_all isPaginatorArrow).get? 1 with
    | none =>
      rw [List.get?_eq_none] at ha
      omega
    | some arrow =>
      refine ⟨arrow, rfl, ?_⟩
      simp only [check_page, hp, ha]
  · intro hp
    simp only [check_page, hp]
  · intro paginator hp hlt
    have ha : (paginator.find_all isPaginatorArrow).get? 1 = none :=
      List.get?_eq_none.mpr (by omega)
    simp only [check_page, hp, ha]

/-- Witness for C10: on a page whose paginator's second arrow carries
`disabled='disabled'` the flag is true; on a page without a paginator,
detection fails. -/
theorem check_page_characterization_witness :
    check_page paginatorPage = some true ∧ check_page noPaginatorPage = none := by
  constructor
  · obtain ⟨arrow, ha, hc⟩ := (check_page_characterization paginatorPage).1
      paginatorNode rfl (by decide)
    have h2 : some (Node.tag "a" [("class", "paginator__arrow"), ("disabled", "disabled")] [])
        = some arrow := by rw [← ha]; rfl
    cases h2
    exact hc
  · exact (check_page_characterization noPaginatorPage).2.1 rfl

/-- As long as every fetched page has its `search` div, a pass of the retry
loop finishes without an exception. -/
theorem spsForPass_ok (fetch : Nat → Node)
    (h : ∀ i, ((fetch i).find isSearchDiv).isSome) :
    ∀ (attempts t : Nat), ∃ t2, spsForPass fetch t attempts = .ok t2 := by
  intro attempts
  induction attempts with
  | zero => intro t; exact ⟨t, rfl⟩
  | succ attempts ih =>
    intro t
    unfold spsForPass
    cases hf : (fetch t).find isSearchDiv with
    | none => exact absurd (h t) (by simp [hf])
    | some id_search =>
      cases hs : id_search.find isResultsSection with
      | none => simpa only [hs] using ih (t + 1)
      | some sec => exact ⟨t + 1, by simp only [hs]⟩

/-- C2: the claim that `single_page_scraping` returns after a single
fetch+extract when the results section is present, and otherwise retries at
most 5 times in total before logging and continuing, fails on the code: the
function sits in `while True` whose only `break` merely leaves the inner
`for` loop, so on any fetch sequence whose pages contain the `search` div —
results section present or not — no number of iterations of the `while` loop
ever produces a return value; the call refetches forever. -/
theorem single_page_scraping_never_returns (fetch : Nat → Node)
    (h : ∀ i, ((fetch i).find isSearchDiv).isSome) :
    ∀ fuel t, single_page_scraping fetch fuel t = none := by
  intro fuel
  induction fuel with
  | zero => intro t; rfl
  | succ fuel ih =>
    intro t
    unfold single_page_scraping
    obtain ⟨t2, h2⟩ := spsForPass_ok fetch h 5 t
    rw [h2]
    exact ih t2

/-- Witness for C2: a fixed well-formed page — `search` div, results section
with one listing, paginator — still never makes the call return, here run
for 9 iterations of the `while` loop. -/
theorem single_page_scraping_never_returns_witness :
    (∀ i : Nat, ((((fun _ => goodPage) : Nat → Node) i).find isSearchDiv).isSome) ∧
    single_page_scraping (fun _ => goodPage) 9 0 = none := by
  have h : ∀ i : Nat, ((((fun _ => goodPage) : Nat → Node) i).find isSearchDiv).isSome :=
    fun i => rfl
  exact ⟨h, single_page_scraping_never_returns (fun _ => goodPage) h 9 0⟩

/-- The record built by `process_item` carries as `check_in`/`check_out`
exactly the `checkIn`/`checkOut` query parameters of its own `link`. -/
theorem process_item_dates {item : Node} {v : Option String} {r : ListingRecord}
    {v2 : Option String} (h : process_item item v = .ok (r, v2)) :
    r.check_in = parseQsFirst (urlQuery r.link) "checkIn" ∧
    r.check_out = parseQsFirst (urlQuery r.link) "checkOut" := by
  unfold process_item at h
  split at h
  · exact Except.noConfusion h
  · split at h
    · exact Except.noConfusion h
    · split at h
      · exact Except.noConfusion h
      · split at h
        · exact Except.noConfusion h
        · exact Except.noConfusion h
        · injection h with h1
          cases h1
          refine ⟨?_, ?_⟩
          · rfl
          · rfl

/-- The loop of `process_list` preserves the link-derivation invariant for
every record it emits, whatever the incoming `length_value` binding. -/
theorem processListAux_dates :
    ∀ (items : List Node) (v : Option String) (recs : List ListingRecord),
    processListAux items v = .ok recs →
    ∀ r ∈ recs,
      r.check_in = parseQsFirst (urlQuery r.link) "checkIn" ∧
      r.check_out = parseQsFirst (urlQuery r.link) "checkOut"
  | [], v, recs, h => by
    injection h with h1
    subst h1
    intro r hr
    cases hr
  | item :: rest, v, recs, h => by
    unfold processListAux at h
    split at h
    · exact Except.noConfusion h
    · rename_i r0 v2 heq
      split at h
      · exact Except.noConfusion h
      · rename_i recs2 heq2
        injection h with h1
        subst h1
        intro r hr
        rcases List.mem_cons.mp hr with hr | hr
        · subst hr
          exact process_item_dates heq
        · exact processListAux_dates rest v2 recs2 heq2 r hr

/-- C5: every record produced by `process_list` has `check_in` and
`check_out` equal to the `checkIn` and `checkOut` query parameters of its
own `link` (empty when the parameter is absent there), independent of
anything else on the page. -/
theorem process_list_dates_from_link (search_list : List Node)
    (recs : List ListingRecord) (h : process_list search_list = .ok recs) :
    ∀ r ∈ recs,
      r.check_in = parseQsFirst (urlQuery r.link) "checkIn" ∧
      r.check_out = parseQsFirst (urlQuery r.link) "checkOut" :=
  processListAux_dates search_list none recs h

/-- Witness for C5: on the listing whose link is
`/en/boat-a?checkIn=2024-06-01&checkOut=2024-06-08`, the extracted record's
dates are exactly the link's query parameters. -/
theorem process_list_dates_from_link_witness :
    (ListingRecord.mk "/en/boat-a?checkIn=2024-06-01&checkOut=2024-06-08"
        "Bavaria 46" "10.43 m" "€1,234.00" "2024-06-01" "2024-06-08").check_in =
      parseQsFirst (urlQuery "/en/boat-a?checkIn=2024-06-01&checkOut=2024-06-08")
        "checkIn" ∧
    (ListingRecord.mk "/en/boat-a?checkIn=2024-06-01&checkOut=2024-06-08"
        "Bavaria 46" "10.43 m" "€1,234.00" "2024-06-01" "2024-06-08").check_out =
      parseQsFirst (urlQuery "/en/boat-a?checkIn=2024-06-01&checkOut=2024-06-08")
        "checkOut" :=
  process_list_dates_from_link [goodItem] _ rfl _ (List.mem_cons_self _ _)

/-- The page loop of `all_pages_scraping`: if page `k` is the first page the
oracle flags as last and extraction succeeds on every page up to `k`, then
starting from page `n ≤ k` with fuel `k + 1 - n` the loop requests exactly
pages `n` through `k` and appends their records in page order. -/
theorem allPagesAux_walk (sps : String → List Node × Bool) (url : String)
    (f : Nat → List ListingRecord) (k : Nat)
    (hfalse : ∀ m, 1 ≤ m → m < k → (sps (pageUrl url m)).2 = false)
    (htrue : (sps (pageUrl url k)).2 = true)
    (hok : ∀ m, 1 ≤ m → m ≤ k → process_list (sps (pageUrl url m)).1 = .ok (f m)) :
    ∀ (fuel n : Nat), n + fuel = k + 1 → 1 ≤ n → n ≤ k →
    ∀ (urls : List String) (acc : List ListingRecord),
    all_pages_scraping sps url fuel n urls acc =
      some (urls ++ (List.range' n fuel).map (pageUrl url),
        .ok (acc ++ ((List.range' n fuel).map f).flatten)) := by
  intro fuel
  induction fuel with
  | zero => intro n hn hn1 hnk urls acc; omega
  | succ fuel ih =>
    intro n hn hn1 hnk urls acc
    unfold all_pages_scraping
    simp only [hok n hn1 hnk]
    rcases Nat.eq_or_lt_of_le hnk with heq | hlt
    · subst heq
      have hf0 : fuel = 0 := by omega
      subst hf0
      simp only [htrue, if_true]
      simp [List.range']
    · simp only [hfalse n hn1 hlt, Bool.false_eq_true, if_false]
      rw [ih (n + 1) (by omega) (by omega) (by omega) (urls ++ [pageUrl url n]) (acc ++ f n)]
      simp [List.range'_succ, List.append_assoc]

/-- C4: when page `k` is the first page whose pagination reports last,
`all_pages_scraping` requests exactly the base URL with `&page=1` through
`&page=k` appended, in order, then stops and returns the concatenation of
the pages' extracted records in page order. -/
theorem all_pages_scraping_fetches_through_last (sps : String → List Node × Bool)
    (url : String) (k : Nat) (f : Nat → List ListingRecord) (hk : 1 ≤ k)
    (hfalse : ∀ m, 1 ≤ m → m < k → (sps (pageUrl url m)).2 = false)
    (htrue : (sps (pageUrl url k)).2 = true)
    (hok : ∀ m, 1 ≤ m → m ≤ k → process_list (sps (pageUrl url m)).1 = .ok (f m)) :
    all_pages_scraping sps url k 1 [] [] =
      some ((List.range' 1 k).map (pageUrl url),
        .ok ((List.range' 1 k).map f).flatten) := by
  have h := allPagesAux_walk sps url f k hfalse htrue hok k 1 (by omega) le_rfl hk [] []
  simpa using h

/-- Witness for C4: a synthetic three-page sequence where only page 3 reports
a disabled next arrow makes the walker fetch exactly pages 1, 2, 3 and return
their records in page order. -/
theorem all_pages_scraping_fetches_through_last_witness :
    all_pages_scraping sps3 base3 3 1 [] [] =
      some ([pageUrl base3 1, pageUrl base3 2, pageUrl base3 3],
        .ok (recs3 "Alpha" ++ recs3 "Bravo" ++ recs3 "Charlie")) := by
  have h := all_pages_scraping_fetches_through_last sps3 base3 3 f3 (by omega)
    (by intro m h1 h2; interval_cases m <;> decide)
    (by decide)
    (by intro m h1 h2; interval_cases m <;> decide)
  rw [h]
  rfl

/-- The window loop of `all_dates_scraping` maps each consecutive-Saturday
pair to its search URL and concatenates the walker's records in window
order, given that the walker succeeds on every window. -/
theorem adsLoop_ok (walker : String → Except PyError (List ListingRecord))
    (destination : String) (f : String × String → List ListingRecord) :
    ∀ (ps : List (String × String)),
    (∀ p ∈ ps, walker (windowUrl destination p.1 p.2) = .ok (f p)) →
    adsLoop walker destination ps =
      (ps.map (fun p => windowUrl destination p.1 p.2), .ok (ps.map f).flatten)
  | [], _ => by simp [adsLoop]
  | (ci, co) :: rest, hw => by
    have h1 : walker (windowUrl destination ci co) = .ok (f (ci, co)) :=
      hw (ci, co) (List.mem_cons_self _ _)
    have h2 := adsLoop_ok walker destination f rest
      (fun p hp => hw p (List.mem_cons_of_mem _ hp))
    unfold adsLoop
    simp [h1, h2]

/-- C6: `all_dates_scraping` returns the concatenation of the per-window
walker results in window order, records never mutated or deduplicated; each
window's list itself keeps the walker's page-then-listing order. -/
theorem all_dates_scraping_order (walker : String → Except PyError (List ListingRecord))
    (destination start_date_str end_date_str : String)
    (saturdays : List String) (f : String × String → List ListingRecord)
    (hs : gen_dates start_date_str end_date_str = some saturdays)
    (hw : ∀ p ∈ consecutivePairs saturdays,
      walker (windowUrl destination p.1 p.2) = .ok (f p)) :
    all_dates_scraping walker destination start_date_str end_date_str =
      some ((consecutivePairs saturdays).map (fun p => windowUrl destination p.1 p.2),
        .ok ((consecutivePairs saturdays).map f).flatten) := by
  unfold all_dates_scraping
  rw [hs]
  simp only [Option.map_some']
  rw [adsLoop_ok walker destination f (consecutivePairs saturdays) hw]

/-- Witness for C6: two windows (three Saturdays) of four records each — two
pages of two listings per window — come back as exactly 8 records in
window-then-page-then-listing order. -/
theorem all_dates_scraping_order_witness :
    all_dates_scraping walker6 "split-1" "2024-05-01" "2024-05-18" =
      some ([windowUrl "split-1" "24-05-04" "24-05-11",
             windowUrl "split-1" "24-05-11" "24-05-18"],
        .ok [wrec "w1p1b1", wrec "w1p1b2", wrec "w1p2b1", wrec "w1p2b2",
             wrec "w2p1b1", wrec "w2p1b2", wrec "w2p2b1", wrec "w2p2b2"]) := by
  have h := all_dates_scraping_order walker6 "split-1" "2024-05-01" "2024-05-18"
    ["24-05-04", "24-05-11", "24-05-18"] f6 rfl (by decide)
  rw [h]
  rfl

end Boataround

